import Mathlib

/-!
Verification development for the BiliRoaming resolver-server configuration UI
(src/config-ui/app.py). The Python program is shallowly embedded: every
external effect (docker client construction, HTTP calls over the local
socket, subprocess invocations of curl, file reads and writes, container
stop and start) is driven by an explicit environment record that says, for
each call site, whether the call returns normally and with what value, or
raises which exception. Each embedded function returns the trace of calls
it issued together with its Python return value or the exception it
propagates.
-/

namespace BiliRoamingUI

/-- Exception values distinguishable by the control flow of app.py. -/
inductive Exc where
  | runtimeError (msg : String)
  | dockerException (msg : String)
  | requestsTimeout
  | osError (msg : String)
  | containerError (stderrText : String)
  | jsonError (msg : String)
  | other (msg : String)
  deriving DecidableEq

/-- True exactly for docker.errors.DockerException, the class caught at the
from_env fallback in make_docker_client. -/
def Exc.isDockerException : Exc → Bool
  | .dockerException _ => true
  | _ => false

/-- The string interpolated by the handlers of setup when reporting an error. -/
def Exc.message : Exc → String
  | .runtimeError m => m
  | .dockerException m => m
  | .requestsTimeout => "timeout"
  | .osError m => m
  | .containerError m => m
  | .jsonError m => m
  | .other m => m

/-- Whether an embedded Python call returned normally. -/
def eOk {α : Type} : Except Exc α → Bool
  | .ok _ => true
  | .error _ => false

/-- Equality of embedded call outcomes is decidable. -/
def exceptDecEq {ε α : Type} [DecidableEq ε] [DecidableEq α] : DecidableEq (Except ε α)
  | .ok a, .ok b =>
    if h : a = b then isTrue (congrArg Except.ok h)
    else isFalse (fun hc => h (Except.ok.inj hc))
  | .ok _, .error _ => isFalse (fun hc => Except.noConfusion hc)
  | .error _, .ok _ => isFalse (fun hc => Except.noConfusion hc)
  | .error a, .error b =>
    if h : a = b then isTrue (congrArg Except.error h)
    else isFalse (fun hc => h (Except.error.inj hc))

instance {ε α : Type} [DecidableEq ε] [DecidableEq α] : DecidableEq (Except ε α) :=
  exceptDecEq

/-- An opaque handle standing for a constructed docker client object. -/
abbrev Client := Nat

/-! ## Docker client construction (make_docker_client, get_docker_client) -/

/-- Environment for make_docker_client: whether /var/run/docker.sock exists
and the outcome of each of the three client construction attempts. -/
structure DockerEnv where
  sockExists : Bool
  unixClient : Except Exc Client
  fromEnvClient : Except Exc Client
  explicitUnixClient : Except Exc Client
  deriving DecidableEq

/-- The three construction call sites of make_docker_client. -/
inductive Attempt where
  | unixDirect
  | fromEnv
  | explicitUnix
  deriving DecidableEq

/-- The tail of make_docker_client: docker.from_env with, on
docker.errors.DockerException only, one retry against the explicit unix
socket URL; a bare raise re-raises the retry failure. -/
def from_env_with_fallback (env : DockerEnv) : List Attempt × Except Exc Client :=
  match env.fromEnvClient with
  | .ok c => ([.fromEnv], .ok c)
  | .error e =>
    if e.isDockerException then
      match env.explicitUnixClient with
      | .ok c => ([.fromEnv, .explicitUnix], .ok c)
      | .error e2 => ([.fromEnv, .explicitUnix], .error e2)
    else ([.fromEnv], .error e)

/-- make_docker_client: prefer a direct unix socket client when the socket
file exists, swallowing its failure; then fall back to the environment
derived construction with its own one-shot retry. Returns the ordered list
of construction attempts issued together with the result. -/
def make_docker_client (env : DockerEnv) : List Attempt × Except Exc Client :=
  if env.sockExists then
    match env.unixClient with
    | .ok c => ([.unixDirect], .ok c)
    | .error _ =>
      ((Attempt.unixDirect :: (from_env_with_fallback env).1), (from_env_with_fallback env).2)
  else from_env_with_fallback env

/-- get_docker_client: module level cache. Takes the cache before the call,
returns (value returned to the caller, cache after the call, construction
attempts issued during the call). -/
def get_docker_client (cache : Option Client) (env : DockerEnv) :
    Option Client × Option Client × List Attempt :=
  match cache with
  | some c => (some c, some c, [])
  | none =>
    match make_docker_client env with
    | (atts, .ok c) => (some c, some c, atts)
    | (atts, .error _) => (none, none, atts)

/-! ## Filesystem model and the completion marker (is_configured, index) -/

/-- A flat filesystem: association list from path to file contents. -/
abbrev FS := List (String × String)

def fsWrite (fs : FS) (p v : String) : FS :=
  (p, v) :: fs.filter (fun kv => kv.1 ≠ p)

def fsRead (fs : FS) (p : String) : Option String :=
  (fs.find? (fun kv => kv.1 == p)).map (fun kv => kv.2)

def NGINX_CONFIG_DIR : String := "/config/nginx"
def DEFAULT_CONF_PATH : String := NGINX_CONFIG_DIR ++ "/default.conf"
def FINAL_CONF_PATH : String := NGINX_CONFIG_DIR ++ "/final.conf"
def CONFIG_LOCK_FILE : String := NGINX_CONFIG_DIR ++ "/.lock"

/-- is_configured: os.path.exists on the lock file. -/
def is_configured (fs : FS) : Bool :=
  (fsRead fs CONFIG_LOCK_FILE).isSome

/-- Step 4 of setup: open the lock file for writing and write the domain. -/
def commit_marker (fs : FS) (domain : String) : FS :=
  fsWrite fs CONFIG_LOCK_FILE domain

/-- The index route: when configured it reads the lock file contents as the
domain, otherwise it redirects to setup (modelled as none). -/
def index_domain (fs : FS) : Option String :=
  if is_configured fs then fsRead fs CONFIG_LOCK_FILE else none

/-! ## The certbot container run -/

/-- The ACME command arguments both certbot methods place in the container
creation payload. -/
def certbotCmd (domain email : String) : List String :=
  ["certonly", "--standalone", "-d", domain, "--email", email,
   "--agree-tos", "--no-eff-email"]

/-- Container control calls issued by a certbot run, with the container id
used, when one is in scope. -/
inductive CEvent where
  | pull
  | create
  | start (id : Option String)
  | wait (id : Option String)
  | logs (id : Option String)
  | remove (id : Option String)
  deriving DecidableEq

def isRemoveEvent : CEvent → Bool
  | .remove _ => true
  | _ => false

/-- An HTTP response as observed by the code: status code and body text. -/
structure Resp where
  status : Nat
  text : String
  deriving DecidableEq

/-- Environment for run_certbot_via_http. Each sess call either raises or
returns a response; createJson is the outcome of parsing the create
response body and extracting the Id field; containerExit is the time at
which the certbot container exits, driving the wait call; waitJson is the
StatusCode extracted from the wait response body. -/
structure HttpEnv where
  sessAvail : Bool
  pullResp : Except Exc Resp
  createResp : Except Exc Resp
  createJson : Except Exc (Option String)
  startResp : Except Exc Resp
  containerExit : Nat
  waitResp : Except Exc Resp
  waitJson : Except Exc (Option Nat)
  logsResp : Except Exc Resp
  deriving DecidableEq

/-- Result of one certbot run: the container control calls issued, the time
spent blocked in the wait step, the ACME command arguments placed in the
creation payload, and the Python return value or propagated exception. -/
structure RunResult where
  events : List CEvent
  waitTime : Nat
  cmd : List String
  result : Except Exc (Nat × String)
  deriving DecidableEq

/-- run_certbot_via_http: pull, create, then inside try/finally start, wait
(with the caller timeout passed to the HTTP request), fetch logs; the
finally clause issues the container removal on every exit path reached
after the container id was obtained. -/
def run_certbot_via_http (env : HttpEnv) (domain email : String)
    (timeout : Nat := 300) : RunResult :=
  let cmd := certbotCmd domain email
  if !env.sessAvail then
    { events := [], waitTime := 0, cmd := cmd,
      result := .error (.runtimeError ("requests_unixsocket not available or /var/run/docker.sock missing")) }
  else
    match env.pullResp with
    | .error e => { events := [.pull], waitTime := 0, cmd := cmd, result := .error e }
    | .ok r =>
      if r.status ≠ 200 ∧ r.status ≠ 201 then
        { events := [.pull], waitTime := 0, cmd := cmd,
          result := .error (.runtimeError ("Failed to pull image certbot/certbot: " ++ toString r.status ++ " " ++ r.text)) }
      else
        match env.createResp with
        | .error e => { events := [.pull, .create], waitTime := 0, cmd := cmd, result := .error e }
        | .ok rc =>
          if rc.status ≠ 201 ∧ rc.status ≠ 200 then
            { events := [.pull, .create], waitTime := 0, cmd := cmd,
              result := .error (.runtimeError ("Failed to create certbot container: " ++ toString rc.status ++ " " ++ rc.text)) }
          else
            match env.createJson with
            | .error e => { events := [.pull, .create], waitTime := 0, cmd := cmd, result := .error e }
            | .ok cid =>
              let body : List CEvent × Nat × Except Exc (Nat × String) :=
                match env.startResp with
                | .error e => ([.start cid], 0, .error e)
                | .ok rs =>
                  if rs.status ≠ 204 ∧ rs.status ≠ 200 then
                    ([.start cid], 0, .error (.runtimeError ("Failed to start certbot container: " ++ toString rs.status ++ " " ++ rs.text)))
                  else
                    if timeout < env.containerExit then
                      ([.start cid, .wait cid], timeout, .error .requestsTimeout)
                    else
                      match env.waitResp with
                      | .error e => ([.start cid, .wait cid], env.containerExit, .error e)
                      | .ok rw =>
                        if rw.status ≠ 200 then
                          ([.start cid, .wait cid], env.containerExit, .error (.runtimeError ("Certbot wait failed: " ++ toString rw.status ++ " " ++ rw.text)))
                        else
                          match env.waitJson with
                          | .error e => ([.start cid, .wait cid], env.containerExit, .error e)
                          | .ok sc =>
                            match env.logsResp with
                            | .error e => ([.start cid, .wait cid, .logs cid], env.containerExit, .error e)
                            | .ok rl => ([.start cid, .wait cid, .logs cid], env.containerExit, .ok (sc.getD 1, rl.text))
              { events := [.pull, .create] ++ body.1 ++ [.remove cid],
                waitTime := body.2.1, cmd := cmd, result := body.2.2 }

/-- Captured output of one subprocess.run invocation. -/
structure ProcOut where
  returncode : Int
  stdout : String
  stderr : String
  deriving DecidableEq

/-- Environment for run_certbot_via_curl. createRun is the subprocess.run of
the curl create request, createJson the outcome of json.loads on its
stdout and the Id lookup; startRun, waitRun, logsRun, removeRun are the
subsequent subprocess.run invocations, which the code issues without
examining their return codes; containerExit is the time at which the
certbot container exits, which the curl wait request, issued with no
timeout, blocks for. -/
structure CurlEnv where
  sockExists : Bool
  createRun : Except Exc ProcOut
  createJson : Except Exc (Option String)
  startRun : Except Exc Unit
  containerExit : Nat
  waitRun : Except Exc Unit
  logsRun : Except Exc ProcOut
  removeRun : Except Exc Unit
  deriving DecidableEq

/-- run_certbot_via_curl: pull via os.system (result discarded), create via
subprocess curl with a return code check and json parse, then start, wait,
logs and remove as bare subprocess invocations with no try/finally around
them; on normal completion it returns exit code 0 with the logs stdout,
never the ACME exit status. -/
def run_certbot_via_curl (env : CurlEnv) (domain email : String) : RunResult :=
  let cmd := certbotCmd domain email
  if !env.sockExists then
    { events := [], waitTime := 0, cmd := cmd, result := .error (.runtimeError ("socket missing")) }
  else
    match env.createRun with
    | .error e => { events := [.pull, .create], waitTime := 0, cmd := cmd, result := .error e }
    | .ok p =>
      if p.returncode ≠ 0 then
        { events := [.pull, .create], waitTime := 0, cmd := cmd,
          result := .error (.runtimeError ("create failed: " ++ p.stderr)) }
      else
        match env.createJson with
        | .error e => { events := [.pull, .create], waitTime := 0, cmd := cmd, result := .error e }
        | .ok cid =>
          match env.startRun with
          | .error e =>
            { events := [.pull, .create, .start cid], waitTime := 0, cmd := cmd, result := .error e }
          | .ok _ =>
            match env.waitRun with
            | .error e =>
              { events := [.pull, .create, .start cid, .wait cid], waitTime := 0, cmd := cmd,
                result := .error e }
            | .ok _ =>
              match env.logsRun with
              | .error e =>
                { events := [.pull, .create, .start cid, .wait cid, .logs cid],
                  waitTime := env.containerExit, cmd := cmd, result := .error e }
              | .ok p2 =>
                match env.removeRun with
                | .error e =>
                  { events := [.pull, .create, .start cid, .wait cid, .logs cid, .remove cid],
                    waitTime := env.containerExit, cmd := cmd, result := .error e }
                | .ok _ =>
                  { events := [.pull, .create, .start cid, .wait cid, .logs cid, .remove cid],
                    waitTime := env.containerExit, cmd := cmd, result := .ok (0, p2.stdout) }

/-! ## The setup workflow -/

/-- Calls the setup route issues against the edge process and the
filesystem, plus markers for which certbot method ran. The certNative
marker would record a certificate run through the docker SDK client; the
code has no such call site, so no execution emits it. -/
inductive WEvent where
  | stopNginx
  | startNginx
  | certCurl
  | certHttp
  | certNative
  | writeFinal (content : String)
  | removeDefault
  | writeLock (content : String)
  deriving DecidableEq

def isWriteFinal : WEvent → Bool
  | .writeFinal _ => true
  | _ => false

def isWriteLock : WEvent → Bool
  | .writeLock _ => true
  | _ => false

/-- What the setup route answers: a redirect to index (with or without the
success flash), the early abort when no docker client is available, or a
redirect back to setup carrying the flashed error message. -/
inductive Outcome where
  | redirectIndex (flashedSuccess : Bool)
  | noDockerRedirectSetup
  | errorRedirectSetup (msg : String)
  deriving DecidableEq

/-- The two exception handlers of setup: docker.errors.ContainerError gets
the certificate failure message with the captured stderr, every other
exception the generic unknown error message. -/
def flashFor : Exc → Outcome
  | .containerError st =>
    .errorRedirectSetup ("证书申请失败: " ++ st ++ ". 请检查域名解析和端口。")
  | e => .errorRedirectSetup ("发生未知错误: " ++ e.message)

/-- Step 2 of setup: try run_certbot_via_curl first; on any exception fall
back to run_certbot_via_http (with its default timeout); if that also
raises, the bare raise propagates the second exception. -/
def obtain_certificate (cenv : CurlEnv) (henv : HttpEnv) (domain email : String) :
    List WEvent × Except Exc (Nat × String) :=
  match (run_certbot_via_curl cenv domain email).result with
  | .ok r => ([.certCurl], .ok r)
  | .error _ =>
    match (run_certbot_via_http henv domain email).result with
    | .ok r => ([.certCurl, .certHttp], .ok r)
    | .error e2 => ([.certCurl, .certHttp], .error e2)

/-- Environment for the setup route: outcomes of containers.get, the nginx
stop, the two certbot method environments, the template read, the final
config write, whether the default config exists, the lock file write, the
nginx start on the success path, and the nginx start attempted inside the
exception handlers. -/
structure WorkflowEnv where
  getContainer : Except Exc Unit
  stopResult : Except Exc Unit
  curlEnv : CurlEnv
  httpEnv : HttpEnv
  templateRead : Except Exc String
  finalWrite : Except Exc Unit
  defaultExists : Bool
  lockWrite : Except Exc Unit
  startResult : Except Exc Unit
  startAfterError : Except Exc Unit
  deriving DecidableEq

/-- The POST branch of the setup route. configured is the is_configured
guard at entry; client is what get_docker_client returned. Events are
recorded when the corresponding call is issued, whether or not it then
raises; in particular the handler start call is recorded even when it
fails, and when containers.get itself raised, the handlers reference an
unbound variable, so no start call is ever issued on that path. Returns
the event trace and the response. -/
def setup (configured : Bool) (client : Option Client) (env : WorkflowEnv)
    (domain email : String) : List WEvent × Outcome :=
  if configured then ([], .redirectIndex false)
  else
    match client with
    | none => ([], .noDockerRedirectSetup)
    | some _ =>
      match env.getContainer with
      | .error e => ([], flashFor e)
      | .ok _ =>
        match env.stopResult with
        | .error e => ([.stopNginx, .startNginx], flashFor e)
        | .ok _ =>
          match (obtain_certificate env.curlEnv env.httpEnv domain email).2 with
          | .error e =>
            (WEvent.stopNginx :: (obtain_certificate env.curlEnv env.httpEnv domain email).1
              ++ [.startNginx], flashFor e)
          | .ok _ =>
            match env.templateRead with
            | .error e =>
              (WEvent.stopNginx :: (obtain_certificate env.curlEnv env.httpEnv domain email).1
                ++ [.startNginx], flashFor e)
            | .ok tmpl =>
              match env.finalWrite with
              | .error e =>
                (WEvent.stopNginx :: (obtain_certificate env.curlEnv env.httpEnv domain email).1
                  ++ [.writeFinal (tmpl.replace ("${SERVER_NAME}") domain), .startNginx], flashFor e)
              | .ok _ =>
                match env.lockWrite with
                | .error e =>
                  (WEvent.stopNginx :: (obtain_certificate env.curlEnv env.httpEnv domain email).1
                    ++ [.writeFinal (tmpl.replace ("${SERVER_NAME}") domain)]
                    ++ (if env.defaultExists then [.removeDefault] else [])
                    ++ [.writeLock domain, .startNginx], flashFor e)
                | .ok _ =>
                  match env.startResult with
                  | .error e =>
                    (WEvent.stopNginx :: (obtain_certificate env.curlEnv env.httpEnv domain email).1
                      ++ [.writeFinal (tmpl.replace ("${SERVER_NAME}") domain)]
                      ++ (if env.defaultExists then [.removeDefault] else [])
                      ++ [.writeLock domain, .startNginx, .startNginx], flashFor e)
                  | .ok _ =>
                    (WEvent.stopNginx :: (obtain_certificate env.curlEnv env.httpEnv domain email).1
                      ++ [.writeFinal (tmpl.replace ("${SERVER_NAME}") domain)]
                      ++ (if env.defaultExists then [.removeDefault] else [])
                      ++ [.writeLock domain, .startNginx], .redirectIndex true)

/-- The HTTP method reached the point where the container id was obtained
from the create response: the session existed, pull and create returned
accepted status codes, and the create response body parsed. -/
def httpCreateOk (env : HttpEnv) : Bool :=
  env.sessAvail &&
  (match env.pullResp with
   | .ok r => r.status == 200 || r.status == 201
   | .error _ => false) &&
  (match env.createResp with
   | .ok r => r.status == 201 || r.status == 200
   | .error _ => false) &&
  eOk env.createJson

/-- The container id the HTTP method extracted from the create response. -/
def httpCreatedId (env : HttpEnv) : Option String :=
  match env.createJson with
  | .ok v => v
  | .error _ => none

/-- The curl method obtained a container id: the socket existed, the create
invocation returned normally with return code 0, and its stdout parsed. -/
def curlCreateOk (env : CurlEnv) : Bool :=
  env.sockExists &&
  (match env.createRun with
   | .ok p => p.returncode == 0
   | .error _ => false) &&
  eOk env.createJson

/-- The curl method reached its remove invocation: create succeeded and
none of the start, wait and logs invocations raised. -/
def curlReachedRemove (env : CurlEnv) : Bool :=
  curlCreateOk env && eOk env.startRun && eOk env.waitRun && eOk env.logsRun

/-! ## Concrete environments used as witnesses -/

def exDomain : String := "example.com"
def exEmail : String := "a@b.com"

/-- A curl-method run in which every call succeeds. -/
def cenvOk : CurlEnv :=
  { sockExists := true, createRun := .ok ⟨0, "idjson", ""⟩,
    createJson := .ok (some ("cbt1")), startRun := .ok (), containerExit := 7,
    waitRun := .ok (), logsRun := .ok ⟨0, "certbot output", ""⟩, removeRun := .ok () }

/-- An HTTP-method run in which every call succeeds and the container exits 0. -/
def henvOk : HttpEnv :=
  { sessAvail := true, pullResp := .ok ⟨200, ""⟩, createResp := .ok ⟨201, ""⟩,
    createJson := .ok (some ("cbt2")), startResp := .ok ⟨204, ""⟩, containerExit := 7,
    waitResp := .ok ⟨200, ""⟩, waitJson := .ok (some 0), logsResp := .ok ⟨200, "logs"⟩ }

/-- A fully successful provisioning run. -/
def wenvOk : WorkflowEnv :=
  { getContainer := .ok (), stopResult := .ok (), curlEnv := cenvOk, httpEnv := henvOk,
    templateRead := .ok ("server_name ${SERVER_NAME};"), finalWrite := .ok (),
    defaultExists := true, lockWrite := .ok (), startResult := .ok (),
    startAfterError := .ok () }

/-- A curl-method run whose create subprocess invocation raises. -/
def cenvCreateRaise : CurlEnv :=
  { sockExists := true, createRun := .error (.osError ("curl invocation failed")),
    createJson := .ok none, startRun := .ok (), containerExit := 0,
    waitRun := .ok (), logsRun := .ok ⟨0, "", ""⟩, removeRun := .ok () }

/-- An HTTP-method run in which every call succeeds but the ACME container
exits with status 1 and logs a DNS problem. -/
def henvAcmeFail : HttpEnv :=
  { sessAvail := true, pullResp := .ok ⟨200, ""⟩, createResp := .ok ⟨201, ""⟩,
    createJson := .ok (some ("cbt9")), startResp := .ok ⟨204, ""⟩, containerExit := 12,
    waitResp := .ok ⟨200, ""⟩, waitJson := .ok (some 1), logsResp := .ok ⟨200, "DNS problem"⟩ }

/-- A provisioning run in which the curl certbot method raises, the HTTP
fallback reaches the runtime, and the ACME client itself exits 1. -/
def wenvAcmeFail : WorkflowEnv :=
  { getContainer := .ok (), stopResult := .ok (), curlEnv := cenvCreateRaise,
    httpEnv := henvAcmeFail, templateRead := .ok ("server_name ${SERVER_NAME};"),
    finalWrite := .ok (), defaultExists := true, lockWrite := .ok (),
    startResult := .ok (), startAfterError := .ok () }

/-- The construction outcome each of the three call sites of
make_docker_client would observe. -/
def attemptResult (env : DockerEnv) : Attempt → Except Exc Client
  | .unixDirect => env.unixClient
  | .fromEnv => env.fromEnvClient
  | .explicitUnix => env.explicitUnixClient

/-- The client produced by the first succeeding attempt of a list. -/
def firstSuccess (env : DockerEnv) : List Attempt → Option Client
  | [] => none
  | a :: rest =>
    match attemptResult env a with
    | .ok c => some c
    | .error _ => firstSuccess env rest

/-- The HTTP method reached its wait request: the container id was obtained
and the start request returned an accepted status code. -/
def httpStartOk (env : HttpEnv) : Bool :=
  httpCreateOk env &&
  (match env.startResp with
   | .ok r => r.status == 204 || r.status == 200
   | .error _ => false)

/-- The curl method reached the point where its wait invocation returned:
create succeeded and neither the start nor the wait invocation raised. -/
def curlWaitReturned (env : CurlEnv) : Bool :=
  curlCreateOk env && eOk env.startRun && eOk env.waitRun

/-- A curl-method run whose start subprocess invocation raises after create
succeeded and returned a container id. -/
def cenvStartRaise : CurlEnv :=
  { sockExists := true, createRun := .ok ⟨0, "idjson", ""⟩,
    createJson := .ok (some ("cbt1")), startRun := .error (.osError ("spawn failure")),
    containerExit := 0, waitRun := .ok (), logsRun := .ok ⟨0, "", ""⟩, removeRun := .ok () }

/-- A curl-method run in which every call succeeds but the certbot
container only exits after 301 time units. -/
def cenvSlow : CurlEnv :=
  { sockExists := true, createRun := .ok ⟨0, "idjson", ""⟩,
    createJson := .ok (some ("cbt3")), startRun := .ok (), containerExit := 301,
    waitRun := .ok (), logsRun := .ok ⟨0, "slow logs", ""⟩, removeRun := .ok () }

/-- A docker environment in which all three constructions fail, the
environment-derived one with the client construction error class. -/
def denvAllFail : DockerEnv :=
  { sockExists := true, unixClient := .error (.dockerException ("bad unix url")),
    fromEnvClient := .error (.dockerException ("bad env url")),
    explicitUnixClient := .error (.osError ("no socket")) }

/-- A docker environment in which the direct unix socket construction
succeeds immediately. -/
def denvOk : DockerEnv :=
  { sockExists := true, unixClient := .ok 7,
    fromEnvClient := .error (.dockerException ("unused")),
    explicitUnixClient := .error (.osError ("unused")) }

/-- A filesystem on which the completion marker is present. -/
def fsConfigured : FS := [(CONFIG_LOCK_FILE, ("example.com"))]

/-- The empty filesystem: no marker, no configuration files. -/
def fsEmpty : FS := []

/-! ## Helper lemmas -/

/-- The certificate step emits the curl marker alone or the curl marker
followed by the HTTP fallback marker. -/
theorem obtain_certificate_events (cenv : CurlEnv) (henv : HttpEnv) (domain email : String) :
    (obtain_certificate cenv henv domain email).1 = [WEvent.certCurl] ∨
    (obtain_certificate cenv henv domain email).1 = [WEvent.certCurl, WEvent.certHttp] := by
  unfold obtain_certificate
  cases hc : (run_certbot_via_curl cenv domain email).result with
  | ok r => simp
  | error e =>
    cases hh : (run_certbot_via_http henv domain email).result with
    | ok r => simp
    | error e2 => simp

/-- The exception handlers of setup never produce the success response. -/
theorem flashFor_ne_redirectIndex (e : Exc) (b : Bool) :
    flashFor e ≠ Outcome.redirectIndex b := by
  cases e <;> simp [flashFor]

/-! ## Claims -/

/-- C9: whenever run_certbot_via_curl returns normally, the exit code it
reports to its caller is 0, for every domain, email and environment,
regardless of the actual exit status of the ACME container. -/
theorem curl_reports_exit_zero (env : CurlEnv) (domain email : String)
    (code : Nat) (logsText : String)
    (h : (run_certbot_via_curl env domain email).result = .ok (code, logsText)) :
    code = 0 := by
  unfold run_certbot_via_curl at h
  repeat' split at h
  all_goals simp_all

theorem curl_reports_exit_zero_witness :
    (run_certbot_via_curl cenvOk exDomain exEmail).result = .ok (0, "certbot output") ∧
    (0 : Nat) = 0 :=
  ⟨by decide, curl_reports_exit_zero cenvOk exDomain exEmail 0 ("certbot output") (by decide)⟩

/-- C5: the certificate run first attempts the curl method; only if that
raises does it attempt the HTTP method; if that also raises the failure
propagates; and no execution of the certificate step uses the native
docker SDK client. -/
theorem cert_method_fallback_order (cenv : CurlEnv) (henv : HttpEnv) (domain email : String) :
    (∀ r, (run_certbot_via_curl cenv domain email).result = .ok r →
        obtain_certificate cenv henv domain email = ([WEvent.certCurl], .ok r)) ∧
    (∀ er r2, (run_certbot_via_curl cenv domain email).result = .error er →
        (run_certbot_via_http henv domain email).result = .ok r2 →
        obtain_certificate cenv henv domain email = ([WEvent.certCurl, WEvent.certHttp], .ok r2)) ∧
    (∀ er er2, (run_certbot_via_curl cenv domain email).result = .error er →
        (run_certbot_via_http henv domain email).result = .error er2 →
        obtain_certificate cenv henv domain email = ([WEvent.certCurl, WEvent.certHttp], .error er2)) ∧
    WEvent.certNative ∉ (obtain_certificate cenv henv domain email).1 := by
  refine ⟨?_, ?_, ?_, ?_⟩
  · intro r h
    unfold obtain_certificate
    rw [h]
  · intro er r2 h hh
    unfold obtain_certificate
    rw [h, hh]
  · intro er er2 h hh
    unfold obtain_certificate
    rw [h, hh]
  · rcases obtain_certificate_events cenv henv domain email with h | h <;> simp [h]

theorem cert_method_fallback_order_witness :
    (run_certbot_via_curl cenvOk exDomain exEmail).result = .ok (0, "certbot output") ∧
    obtain_certificate cenvOk henvOk exDomain exEmail = ([WEvent.certCurl], .ok (0, "certbot output")) :=
  ⟨by decide,
    (cert_method_fallback_order cenvOk henvOk exDomain exEmail).1 (0, "certbot output") (by decide)⟩

/-- C1: setup never inspects the exit code returned by the certbot run.
With the curl method raising and the HTTP fallback reporting ACME exit
code 1 with output DNS problem, the workflow still writes the completion
marker and answers with the success flash, instead of ending Failed with
the marker absent. -/
theorem acme_nonzero_exit_commits_anyway :
    (run_certbot_via_http henvAcmeFail exDomain exEmail).result = .ok (1, "DNS problem") ∧
    (obtain_certificate cenvCreateRaise henvAcmeFail exDomain exEmail).2 = .ok (1, "DNS problem") ∧
    (setup false (some 0) wenvAcmeFail exDomain exEmail).2 = Outcome.redirectIndex true ∧
    WEvent.writeLock exDomain ∈ (setup false (some 0) wenvAcmeFail exDomain exEmail).1 := by
  decide

/-- Every execution of setup produces an event trace of one of six shapes:
no calls at all, stop and handler start, certificate step then handler
start, certificate step and final config write then handler start, the
full sequence with a failing success-path start retried by the handler, or
the full sequence ending in the single success-path start. Only the last
shape can carry the success response. -/
theorem setup_shape (configured : Bool) (client : Option Client) (env : WorkflowEnv)
    (domain email : String) :
    ∃ c,
      (c = [WEvent.certCurl] ∨ c = [WEvent.certCurl, WEvent.certHttp]) ∧
      (((setup configured client env domain email).2 ≠ Outcome.redirectIndex true ∧
          (setup configured client env domain email).1 = []) ∨
       ((setup configured client env domain email).2 ≠ Outcome.redirectIndex true ∧
          (setup configured client env domain email).1 = [WEvent.stopNginx, WEvent.startNginx]) ∨
       ((setup configured client env domain email).2 ≠ Outcome.redirectIndex true ∧
          (setup configured client env domain email).1 =
            WEvent.stopNginx :: c ++ [WEvent.startNginx]) ∨
       (∃ t, (setup configured client env domain email).2 ≠ Outcome.redirectIndex true ∧
          (setup configured client env domain email).1 =
            WEvent.stopNginx :: c ++ [WEvent.writeFinal t, WEvent.startNginx]) ∨
       (∃ t d, (d = [] ∨ d = [WEvent.removeDefault]) ∧
          (setup configured client env domain email).2 ≠ Outcome.redirectIndex true ∧
          env.startResult ≠ Except.ok () ∧
          (setup configured client env domain email).1 =
            WEvent.stopNginx :: c ++ [WEvent.writeFinal t] ++ d
              ++ [WEvent.writeLock domain, WEvent.startNginx, WEvent.startNginx]) ∨
       (∃ t d, (d = [] ∨ d = [WEvent.removeDefault]) ∧
          (setup configured client env domain email).1 =
            WEvent.stopNginx :: c ++ [WEvent.writeFinal t] ++ d
              ++ [WEvent.writeLock domain, WEvent.startNginx])) := by
  refine ⟨(obtain_certificate env.curlEnv env.httpEnv domain email).1,
    obtain_certificate_events env.curlEnv env.httpEnv domain email, ?_⟩
  have hs : setup configured client env domain email =
      setup configured client env domain email := rfl
  conv at hs => rhs; rw [setup.eq_def]
  repeat' split at hs
  all_goals rw [hs]
  all_goals first
    | (simp [flashFor_ne_redirectIndex]; done)
    | exact Or.inr (Or.inr (Or.inr (Or.inl ⟨_, flashFor_ne_redirectIndex _ _, rfl⟩)))
    | exact Or.inr (Or.inr (Or.inr (Or.inr (Or.inr ⟨_, _, Or.inl rfl, rfl⟩))))
    | exact Or.inr (Or.inr (Or.inr (Or.inr (Or.inr ⟨_, _, Or.inr rfl, rfl⟩))))
    | exact Or.inr (Or.inr (Or.inr (Or.inr (Or.inl
        ⟨_, _, Or.inl rfl, flashFor_ne_redirectIndex _ _, by simp [*], rfl⟩))))
    | exact Or.inr (Or.inr (Or.inr (Or.inr (Or.inl
        ⟨_, _, Or.inr rfl, flashFor_ne_redirectIndex _ _, by simp [*], rfl⟩))))

/-- C2: every execution of setup that issues the stop call on the edge
process issues exactly one stop call and exactly one start call, with the
stop call first, provided the success-path start call itself does not
raise (the only exit paths the claim ranges over). -/
theorem restart_follows_stop (configured : Bool) (client : Option Client)
    (env : WorkflowEnv) (domain email : String)
    (hstart : env.startResult = Except.ok ())
    (hstop : WEvent.stopNginx ∈ (setup configured client env domain email).1) :
    (setup configured client env domain email).1.count WEvent.stopNginx = 1 ∧
    (setup configured client env domain email).1.count WEvent.startNginx = 1 ∧
    (setup configured client env domain email).1.head? = some WEvent.stopNginx := by
  obtain ⟨c, hc, hsh⟩ := setup_shape configured client env domain email
  rcases hsh with ⟨_, h⟩ | ⟨_, h⟩ | ⟨_, h⟩ | ⟨t, _, h⟩ | ⟨t, d, hd, _, hsr, h⟩ | ⟨t, d, hd, h⟩
  · rw [h] at hstop; simp at hstop
  · rw [h]; exact ⟨by decide, by decide, by decide⟩
  · rcases hc with rfl | rfl <;> rw [h] <;>
      exact ⟨by simp [List.count_cons], by simp [List.count_cons], by simp⟩
  · rcases hc with rfl | rfl <;> rw [h] <;>
      exact ⟨by simp [List.count_cons], by simp [List.count_cons], by simp⟩
  · exact absurd hstart hsr
  · rcases hc with rfl | rfl <;> rcases hd with rfl | rfl <;> rw [h] <;>
      exact ⟨by simp [List.count_cons, List.count_append],
             by simp [List.count_cons, List.count_append], by simp⟩

/-- C3: every run of setup that answers with the success flash wrote the
final proxy configuration strictly before it wrote the completion marker:
both writes appear in the trace and the final config write has the
strictly smaller index. -/
theorem config_written_before_marker (configured : Bool) (client : Option Client)
    (env : WorkflowEnv) (domain email : String)
    (h : (setup configured client env domain email).2 = Outcome.redirectIndex true) :
    (setup configured client env domain email).1.any isWriteFinal = true ∧
    (setup configured client env domain email).1.any isWriteLock = true ∧
    (setup configured client env domain email).1.findIdx isWriteFinal <
      (setup configured client env domain email).1.findIdx isWriteLock := by
  obtain ⟨c, hc, hsh⟩ := setup_shape configured client env domain email
  rcases hsh with ⟨hne, _⟩ | ⟨hne, _⟩ | ⟨hne, _⟩ | ⟨t, hne, _⟩ | ⟨t, d, hd, hne, _, _⟩ |
    ⟨t, d, hd, hev⟩
  · exact absurd h hne
  · exact absurd h hne
  · exact absurd h hne
  · exact absurd h hne
  · exact absurd h hne
  · rcases hc with rfl | rfl <;> rcases hd with rfl | rfl <;> rw [hev] <;>
      simp [isWriteFinal, isWriteLock, List.findIdx_cons]

theorem config_written_before_marker_witness :
    (setup false (some 0) wenvOk exDomain exEmail).1.any isWriteFinal = true ∧
    (setup false (some 0) wenvOk exDomain exEmail).1.any isWriteLock = true ∧
    (setup false (some 0) wenvOk exDomain exEmail).1.findIdx isWriteFinal <
      (setup false (some 0) wenvOk exDomain exEmail).1.findIdx isWriteLock :=
  config_written_before_marker false (some 0) wenvOk exDomain exEmail (by decide)

theorem restart_follows_stop_witness :
    (setup false (some 0) wenvOk exDomain exEmail).1.count WEvent.stopNginx = 1 ∧
    (setup false (some 0) wenvOk exDomain exEmail).1.count WEvent.startNginx = 1 ∧
    (setup false (some 0) wenvOk exDomain exEmail).1.head? = some WEvent.stopNginx :=
  restart_follows_stop false (some 0) wenvOk exDomain exEmail (by decide) (by decide)

/-- In the HTTP method the finally clause issues exactly one remove when a
container id was obtained, and none otherwise. -/
theorem http_remove_count (env : HttpEnv) (domain email : String) (t : Nat) :
    (run_certbot_via_http env domain email t).events.countP isRemoveEvent =
      if httpCreateOk env then 1 else 0 := by
  unfold run_certbot_via_http httpCreateOk
  repeat' split
  all_goals simp_all [eOk, isRemoveEvent]
  all_goals omega

/-- In the HTTP method the remove call targets the id obtained from the
create response. -/
theorem http_remove_targets_created_id (env : HttpEnv) (domain email : String) (t : Nat)
    (h : httpCreateOk env = true) :
    CEvent.remove (httpCreatedId env) ∈ (run_certbot_via_http env domain email t).events := by
  unfold httpCreateOk at h
  unfold run_certbot_via_http httpCreatedId
  repeat' split
  all_goals simp_all [eOk]

/-- In the curl method a remove is issued exactly when create succeeded and
none of the start, wait and logs invocations raised. -/
theorem curl_remove_count (env : CurlEnv) (domain email : String) :
    (run_certbot_via_curl env domain email).events.countP isRemoveEvent =
      if curlReachedRemove env then 1 else 0 := by
  unfold run_certbot_via_curl curlReachedRemove curlCreateOk
  repeat' split
  all_goals simp_all [eOk, isRemoveEvent]

/-- C4 counterexample: in the curl method a raise of the start invocation
after create returned a container id propagates with no remove call ever
issued, so the claimed unconditional cleanup fails on this method. -/
theorem curl_cleanup_skipped_cex :
    (run_certbot_via_curl cenvStartRaise exDomain exEmail).events =
      [CEvent.pull, CEvent.create, CEvent.start (some ("cbt1"))] ∧
    (run_certbot_via_curl cenvStartRaise exDomain exEmail).events.countP isRemoveEvent = 0 ∧
    eOk (run_certbot_via_curl cenvStartRaise exDomain exEmail).result = false := by
  decide

/-- C4 amended: the HTTP method issues exactly one remove, targeting the id
returned by create, whenever create yielded an id, and zero removes
otherwise; the curl method issues its single remove only when create
succeeded and the start, wait and logs invocations all returned normally,
and zero removes otherwise. -/
theorem certbot_cleanup_removal (henv : HttpEnv) (cenv : CurlEnv)
    (domain email : String) (t : Nat) :
    ((run_certbot_via_http henv domain email t).events.countP isRemoveEvent =
        if httpCreateOk henv then 1 else 0) ∧
    (httpCreateOk henv = true →
        CEvent.remove (httpCreatedId henv) ∈ (run_certbot_via_http henv domain email t).events) ∧
    ((run_certbot_via_curl cenv domain email).events.countP isRemoveEvent =
        if curlReachedRemove cenv then 1 else 0) :=
  ⟨http_remove_count henv domain email t,
   fun h => http_remove_targets_created_id henv domain email t h,
   curl_remove_count cenv domain email⟩

theorem certbot_cleanup_removal_witness :
    httpCreateOk henvOk = true ∧
    CEvent.remove (httpCreatedId henvOk) ∈ (run_certbot_via_http henvOk exDomain exEmail 300).events :=
  ⟨by decide, (certbot_cleanup_removal henvOk cenvOk exDomain exEmail 300).2.1 (by decide)⟩

/-- C6: transport selection order. The attempts issued by
make_docker_client are: the direct unix socket construction first exactly
when the socket file exists; then, unless that first attempt succeeded,
the environment-derived construction; then the explicit unix socket URL
retry exactly when the environment-derived construction raised the client
construction error class. A successful direct construction is returned as
is; in general the returned client is the one of the first succeeding
attempt; and when every construction fails the accessor returns no client
and setup aborts at once with the no-docker response without issuing any
call. -/
theorem transport_selection_order (env : DockerEnv) (wenv : WorkflowEnv)
    (domain email : String) :
    ((make_docker_client env).1 =
      (if env.sockExists then [Attempt.unixDirect] else []) ++
        (if env.sockExists && eOk env.unixClient then []
         else match env.fromEnvClient with
           | .ok _ => [Attempt.fromEnv]
           | .error er =>
             if er.isDockerException then [Attempt.fromEnv, Attempt.explicitUnix]
             else [Attempt.fromEnv])) ∧
    (∀ c, env.sockExists = true → env.unixClient = .ok c →
        make_docker_client env = ([Attempt.unixDirect], .ok c)) ∧
    (∀ c, (make_docker_client env).2 = .ok c ↔
        firstSuccess env (make_docker_client env).1 = some c) ∧
    (eOk (make_docker_client env).2 = false →
      (get_docker_client none env).1 = none ∧
      setup false (get_docker_client none env).1 wenv domain email =
        ([], Outcome.noDockerRedirectSetup)) := by
  obtain ⟨sock, u, f, x⟩ := env
  cases sock <;> rcases u with eu | cu <;> rcases f with ef | cf <;> rcases x with ex | cx <;>
    first
      | (simp [make_docker_client, from_env_with_fallback, get_docker_client, setup,
          eOk, attemptResult, firstSuccess]; done)
      | (cases hdk : ef.isDockerException <;>
           simp [make_docker_client, from_env_with_fallback, get_docker_client, setup,
             eOk, attemptResult, firstSuccess, hdk])

theorem transport_selection_order_witness :
    eOk (make_docker_client denvAllFail).2 = false ∧
    (get_docker_client none denvAllFail).1 = none ∧
    setup false (get_docker_client none denvAllFail).1 wenvOk exDomain exEmail =
      ([], Outcome.noDockerRedirectSetup) :=
  ⟨by decide,
   ((transport_selection_order denvAllFail wenvOk exDomain exEmail).2.2.2 (by decide)).1,
   ((transport_selection_order denvAllFail wenvOk exDomain exEmail).2.2.2 (by decide)).2⟩

/-- C7 counterexample: the curl method issues its wait invocation with no
timeout, so with the default bound of 300 a container exiting at time 301
keeps the wait blocked for 301 time units and the run still returns
normally, refuting the claim that every method blocks at most the
timeout. -/
theorem curl_wait_unbounded_cex :
    (run_certbot_via_curl cenvSlow exDomain exEmail).waitTime = 301 ∧
    300 < (run_certbot_via_curl cenvSlow exDomain exEmail).waitTime ∧
    (run_certbot_via_curl cenvSlow exDomain exEmail).result = .ok (0, ("slow logs")) := by
  decide

/-- C7 amended: the HTTP method passes the caller timeout (default 300) to
its wait request, blocks in the wait step at most that bound, and when the
container exit exceeds the bound it raises the requests timeout exception,
an error distinct from every runtime error; the curl method passes no
timeout, so whenever its wait invocation returns the wait step blocked for
the full container exit time. -/
theorem wait_timeout_bound (henv : HttpEnv) (cenv : CurlEnv)
    (domain email : String) (t : Nat) :
    (run_certbot_via_http henv domain email t).waitTime ≤ t ∧
    (httpStartOk henv = true → t < henv.containerExit →
      (run_certbot_via_http henv domain email t).result = .error Exc.requestsTimeout) ∧
    (∀ s, Exc.requestsTimeout ≠ Exc.runtimeError s) ∧
    (curlWaitReturned cenv = true →
      (run_certbot_via_curl cenv domain email).waitTime = cenv.containerExit) := by
  refine ⟨?_, ?_, fun s => by simp, ?_⟩
  · unfold run_certbot_via_http
    repeat' split
    all_goals simp_all
  · intro hok hlt
    unfold httpStartOk httpCreateOk at hok
    unfold run_certbot_via_http
    repeat' split
    all_goals simp_all [eOk]
  · intro hok
    unfold curlWaitReturned curlCreateOk at hok
    unfold run_certbot_via_curl
    repeat' split
    all_goals simp_all [eOk]

theorem wait_timeout_bound_witness :
    httpStartOk henvOk = true ∧ 5 < henvOk.containerExit ∧
    (run_certbot_via_http henvOk exDomain exEmail 5).result = .error Exc.requestsTimeout :=
  ⟨by decide, by decide,
   (wait_timeout_bound henvOk cenvOk exDomain exEmail 5).2.1 (by decide) (by decide)⟩

/-- C8: invoking setup while the completion marker exists redirects to
index without issuing any call, in particular without stopping the edge
process; and on every filesystem, configured or not, after committing the
marker with any domain the configured check returns true and the index
route reads back exactly that domain. -/
theorem configured_guard_and_commit (fs fs2 : FS) (client : Option Client)
    (env : WorkflowEnv) (domain email dom2 : String) :
    (is_configured fs = true →
      setup (is_configured fs) client env domain email =
        ([], Outcome.redirectIndex false)) ∧
    is_configured (commit_marker fs2 dom2) = true ∧
    index_domain (commit_marker fs2 dom2) = some dom2 := by
  refine ⟨fun h => ?_, ?_, ?_⟩
  · rw [h]; rfl
  · simp [is_configured, commit_marker, fsWrite, fsRead]
  · simp [index_domain, is_configured, commit_marker, fsWrite, fsRead]

theorem configured_guard_and_commit_witness :
    is_configured fsConfigured = true ∧
    setup (is_configured fsConfigured) none wenvOk exDomain exEmail =
      ([], Outcome.redirectIndex false) ∧
    is_configured fsEmpty = false ∧
    is_configured (commit_marker fsEmpty ("b.org")) = true ∧
    index_domain (commit_marker fsEmpty ("b.org")) = some ("b.org") :=
  ⟨by decide,
   (configured_guard_and_commit fsConfigured fsEmpty none wenvOk exDomain exEmail
     ("b.org")).1 (by decide),
   by decide,
   (configured_guard_and_commit fsConfigured fsEmpty none wenvOk exDomain exEmail
     ("b.org")).2.1,
   (configured_guard_and_commit fsConfigured fsEmpty none wenvOk exDomain exEmail
     ("b.org")).2.2⟩

/-- make_docker_client always issues at least one construction attempt. -/
theorem make_docker_client_attempts_ne_nil (env : DockerEnv) :
    (make_docker_client env).1 ≠ [] := by
  unfold make_docker_client from_env_with_fallback
  repeat' split
  all_goals simp

/-- C10: the transport cache only ever holds a successfully constructed
client or nothing. When construction fails the accessor returns none and
leaves the cache empty, so the next call issues the full (nonempty) list
of construction attempts again; when construction succeeds the client is
cached and every later call returns the same client while issuing no
construction attempt at all. -/
theorem get_docker_client_none (env : DockerEnv) :
    get_docker_client none env =
      match (make_docker_client env).2 with
      | .ok c => (some c, some c, (make_docker_client env).1)
      | .error _ => (none, none, (make_docker_client env).1) := by
  unfold get_docker_client
  rcases hm : make_docker_client env with ⟨atts, ce | cc⟩ <;> simp [hm]

theorem docker_client_cache_discipline (env env2 : DockerEnv) :
    (eOk (make_docker_client env).2 = false →
      get_docker_client none env = (none, none, (make_docker_client env).1) ∧
      (get_docker_client none env2).2.2 = (make_docker_client env2).1 ∧
      (make_docker_client env2).1 ≠ []) ∧
    (∀ c, (make_docker_client env).2 = .ok c →
      get_docker_client none env = (some c, some c, (make_docker_client env).1) ∧
      (∀ env3, get_docker_client (some c) env3 = (some c, some c, []))) := by
  constructor
  · intro h
    refine ⟨?_, ?_, make_docker_client_attempts_ne_nil env2⟩
    · rw [get_docker_client_none]
      rcases hm : (make_docker_client env).2 with e | c
      · simp
      · rw [hm] at h; simp [eOk] at h
    · rw [get_docker_client_none]
      rcases hm : (make_docker_client env2).2 with e | c <;> simp
  · intro c hc
    constructor
    · rw [get_docker_client_none, hc]
    · intro env3
      rfl

theorem docker_client_cache_discipline_witness :
    eOk (make_docker_client denvAllFail).2 = false ∧
    get_docker_client none denvAllFail = (none, none, (make_docker_client denvAllFail).1) ∧
    get_docker_client (some 7) denvAllFail = (some 7, some 7, []) :=
  ⟨by decide,
   ((docker_client_cache_discipline denvAllFail denvOk).1 (by decide)).1,
   ((docker_client_cache_discipline denvOk denvAllFail).2 7 (by decide)).2 denvAllFail⟩

end BiliRoamingUI
